import Mathlib

/-!
Verification development for the MusTINN PINN solver
(`src/training/loss.py`, `src/models/model.py`,
`src/tests/LidDrivenCavity.py`, `src/tests/FlowOverAirfoil.py`).

Shallow embedding conventions:
* float32 values are modelled by `ℚ`; IEEE NaN (the result of
  `tf.reduce_mean` over an empty tensor, or arithmetic on NaN) is modelled
  by `none` in `Option ℚ`, with `nanAdd` propagating it through sums.
* Python exceptions (`KeyError`, `ValueError`, `NotImplementedError`,
  `ZeroDivisionError`) are modelled by `Except String`.
* The TensorFlow automatic-differentiation engine is external to the
  repository; it is modelled as an oracle (`ModelOracle`) that supplies the
  model's three output channels and their exact first and second partial
  derivatives at any point.  Both loss implementations in the source
  differentiate the same expressions, so they draw on the same oracle.
* TensorFlow tensor shapes are tracked explicitly where they matter:
  `uvp_pred[:, 0]` has shape `[N]` (a row under broadcasting) while
  `tape.gradient(u_pred, X)` has the shape `[N, 1]` of `X` (a column).
  An elementwise binary op between a `[N]` tensor and an `[M, 1]` tensor
  broadcasts to shape `[M, N]`; `bcastOp` implements exactly that rule.
-/

namespace MusTINN

/-- NaN-aware mean of a float32 vector: `tf.reduce_mean` of an empty tensor
is NaN (modelled as `none`), otherwise the exact arithmetic mean. -/
def tfMean (l : List ℚ) : Option ℚ :=
  if l.length = 0 then none else some (l.sum / (l.length : ℚ))

/-- NaN-propagating addition on float32 scalars. -/
def nanAdd : Option ℚ → Option ℚ → Option ℚ
  | some a, some b => some (a + b)
  | _, _ => none

/-- TF broadcasting of an elementwise binary op between a rank-1 tensor `row`
of shape `[N]` and a rank-2 tensor `col` of shape `[M, 1]`: the result has
shape `[M, N]` with entry `(i, j) = f (row j) (col i)`. -/
def bcastOp (f : ℚ → ℚ → ℚ) (row col : List ℚ) : List (List ℚ) :=
  col.map (fun ci => row.map (fun rj => f rj ci))

/-- Elementwise sum of two `[M, N]` tensors. -/
def matAdd (A B : List (List ℚ)) : List (List ℚ) :=
  List.zipWith (fun r s => List.zipWith (fun a b => a + b) r s) A B

/-- Broadcast addition of an `[M, N]` tensor and an `[M, 1]` column. -/
def matAddCol (A : List (List ℚ)) (c : List ℚ) : List (List ℚ) :=
  List.zipWith (fun r ci => r.map (fun a => a + ci)) A c

/-- Broadcast subtraction of an `[M, 1]` column from an `[M, N]` tensor. -/
def matSubCol (A : List (List ℚ)) (c : List ℚ) : List (List ℚ) :=
  List.zipWith (fun r ci => r.map (fun a => a - ci)) A c

/-- Elementwise sum of two `[N, 1]` columns. -/
def colAdd (a b : List ℚ) : List ℚ :=
  List.zipWith (fun x y => x + y) a b

/-- Scalar multiple of an `[N, 1]` column. -/
def colScale (k : ℚ) (a : List ℚ) : List ℚ :=
  a.map (fun x => k * x)

/-- Mean of `tf.square` over all entries of an `[M, N]` tensor. -/
def meanSqMat (A : List (List ℚ)) : Option ℚ :=
  tfMean (A.flatten.map (fun a => a * a))

/-- Mean of `tf.square` over an `[N, 1]` column. -/
def meanSqCol (c : List ℚ) : Option ℚ :=
  tfMean (c.map (fun a => a * a))

/-- Oracle for the opaque differentiable model `(x, y) ↦ (u, v, p)` plus the
automatic-differentiation engine: channel values and their exact first and
second partial derivatives at a point.  This stands for the TensorFlow model
together with `tape.gradient` / `tf.gradients`, which are external to the
repository; both loss implementations differentiate the same expressions and
therefore read the same oracle. -/
structure ModelOracle where
  u : ℚ → ℚ → ℚ
  v : ℚ → ℚ → ℚ
  p : ℚ → ℚ → ℚ
  ux : ℚ → ℚ → ℚ
  uy : ℚ → ℚ → ℚ
  vx : ℚ → ℚ → ℚ
  vy : ℚ → ℚ → ℚ
  px : ℚ → ℚ → ℚ
  py : ℚ → ℚ → ℚ
  uxx : ℚ → ℚ → ℚ
  uyy : ℚ → ℚ → ℚ
  vxx : ℚ → ℚ → ℚ
  vyy : ℚ → ℚ → ℚ

/-- Output channel `model(...)[:, idx]` for `idx` in 0, 1, 2 (u, v, p). -/
def channel (M : ModelOracle) (idx : ℕ) : ℚ → ℚ → ℚ :=
  match idx with
  | 0 => M.u
  | 1 => M.v
  | _ => M.p

/-- Interior (physics) part of `NavierStokesLoss.loss_function2D`
(`src/training/loss.py` lines 25-61), shared verbatim by
`SteadyNavierStokes2D.loss_function` (`src/tests/LidDrivenCavity.py`
lines 58-88).  Shapes follow the source: `u_pred = uvp_pred[:, 0]` is
`[N]`, every derivative is `[N, 1]`, hence `u_pred * u_x` broadcasts to
`[N, N]` and `momentum_u`/`momentum_v` are `[N, N]` tensors, while
`continuity = u_x + v_y` stays `[N, 1]`. -/
def interiorLoss (M : ModelOracle) (nu : ℚ) (X Y : List ℚ) : Option ℚ :=
  let pts := X.zip Y
  let u_pred := pts.map (fun q => M.u q.1 q.2)
  let v_pred := pts.map (fun q => M.v q.1 q.2)
  let u_x := pts.map (fun q => M.ux q.1 q.2)
  let u_y := pts.map (fun q => M.uy q.1 q.2)
  let v_x := pts.map (fun q => M.vx q.1 q.2)
  let v_y := pts.map (fun q => M.vy q.1 q.2)
  let p_x := pts.map (fun q => M.px q.1 q.2)
  let u_xx := pts.map (fun q => M.uxx q.1 q.2)
  let u_yy := pts.map (fun q => M.uyy q.1 q.2)
  let v_xx := pts.map (fun q => M.vxx q.1 q.2)
  let v_yy := pts.map (fun q => M.vyy q.1 q.2)
  let continuity := colAdd u_x v_y
  let momentum_u :=
    matSubCol
      (matAddCol
        (matAdd (bcastOp (fun a b => a * b) u_pred u_x)
                (bcastOp (fun a b => a * b) v_pred u_y))
        p_x)
      (colScale nu (colAdd u_xx u_yy))
  let momentum_v :=
    matSubCol
      (matAddCol
        (matAdd (bcastOp (fun a b => a * b) u_pred v_x)
                (bcastOp (fun a b => a * b) v_pred v_y))
        (pts.map (fun q => M.py q.1 q.2)))
      (colScale nu (colAdd v_xx v_yy))
  let f_loss_u := meanSqMat momentum_u
  let f_loss_v := meanSqMat momentum_v
  let continuity_loss := meanSqCol continuity
  nanAdd (nanAdd f_loss_u f_loss_v) continuity_loss

/-- Interior loss as the specification states it (§4.1, "Must be evaluated
elementwise over the full interior collocation batch; returns one residual
vector per point"): one residual triple per collocation point, mean of the
squares per channel, the three channel means summed. -/
def specInteriorResidualLoss (M : ModelOracle) (nu : ℚ) (X Y : List ℚ) : Option ℚ :=
  let pts := X.zip Y
  let residMomX := pts.map (fun q =>
    M.u q.1 q.2 * M.ux q.1 q.2 + M.v q.1 q.2 * M.uy q.1 q.2 + M.px q.1 q.2
      - nu * (M.uxx q.1 q.2 + M.uyy q.1 q.2))
  let residMomY := pts.map (fun q =>
    M.u q.1 q.2 * M.vx q.1 q.2 + M.v q.1 q.2 * M.vy q.1 q.2 + M.py q.1 q.2
      - nu * (M.vxx q.1 q.2 + M.vyy q.1 q.2))
  let residCont := pts.map (fun q => M.ux q.1 q.2 + M.vy q.1 q.2)
  nanAdd (nanAdd (tfMean (residMomX.map (fun a => a * a)))
                 (tfMean (residMomY.map (fun a => a * a))))
         (tfMean (residCont.map (fun a => a * a)))

/-- Loss of one boundary component, the inner `compute_loss(bc, idx)` of
`computeBoundaryLoss` (`src/training/loss.py` lines 100-105, duplicated at
`src/tests/LidDrivenCavity.py` lines 39-44).  A `None` condition yields
`tf.constant(0.0)`; otherwise `pred = model(...)[:, idx]` has shape `[N]`,
the stored target array has shape `[M, 1]`, and `pred - bc` broadcasts to
`[M, N]` before `tf.reduce_mean(tf.square(...))`. -/
def compute_loss (M : ModelOracle) (xs ys : List ℚ) (bc : Option (List ℚ))
    (idx : ℕ) : Option ℚ :=
  match bc with
  | some t =>
    let pred := (xs.zip ys).map (fun q => channel M idx q.1 q.2)
    tfMean ((bcastOp (fun pj ti => pj - ti) pred t).flatten.map (fun a => a * a))
  | none => some 0

/-- `computeBoundaryLoss` (`src/training/loss.py` lines 99-111, duplicated at
`src/tests/LidDrivenCavity.py` lines 38-50): the three per-component losses. -/
def computeBoundaryLoss (M : ModelOracle) (xs ys : List ℚ)
    (uBc vBc pBc : Option (List ℚ)) : Option ℚ × Option ℚ × Option ℚ :=
  (compute_loss M xs ys uBc 0, compute_loss M xs ys vBc 1, compute_loss M xs ys pBc 2)

/-- Python values stored in a boundary dictionary.  `arr` is a float32 array
written as its list of entries (every array the repository stores in a
boundary is a column of shape `[N, 1]`, e.g. `np.full((N, 1), ...)`);
`dict` is a nested dictionary such as a `conditions` map or a condition
spec; `num`/`str`/`obj` cover scalar entries and opaque objects such as
`bc_type`. -/
inductive PyVal where
  | pyNone : PyVal
  | arr : List ℚ → PyVal
  | dict : List (String × PyVal) → PyVal
  | num : ℚ → PyVal
  | str : String → PyVal
  | obj : String → PyVal

/-- Python dictionary with string keys. -/
abbrev PyDict := List (String × PyVal)

/-- Python `d[k]`: the stored value, or a `KeyError` when the key is absent. -/
def dictGet (d : PyDict) (k : String) : Except String PyVal :=
  match d.lookup k with
  | some v => Except.ok v
  | none => Except.error ("KeyError: " ++ k)

/-- Conversion applied to a fetched boundary entry by `convert_and_reshape` /
`imposeBoundaryCondition` (`src/training/loss.py` lines 84-97): `None` stays
`None`, an array becomes a float32 tensor, anything else (a nested dict such
as a condition spec) is not convertible by `tf.convert_to_tensor`. -/
def toArrOpt : PyVal → Except String (Option (List ℚ))
  | PyVal.pyNone => Except.ok none
  | PyVal.arr t => Except.ok (some t)
  | _ => Except.error "ValueError: cannot convert value to tensor"

/-- Per-boundary body of the loop in `NavierStokesLoss.loss_function2D`
(`src/training/loss.py` lines 64-78): fetch `x`, `y`, `u`, `v`, `p` from the
boundary dictionary (a missing key raises `KeyError` in source order),
convert them, and return `uBc_loss + vBc_loss + pBc_loss`. -/
def processBoundary (M : ModelOracle) (bd : PyDict) : Except String (Option ℚ) := do
  let xv ← dictGet bd "x"
  let yv ← dictGet bd "y"
  let uv ← dictGet bd "u"
  let vv ← dictGet bd "v"
  let pv ← dictGet bd "p"
  let xBc ← toArrOpt xv
  let yBc ← toArrOpt yv
  let uBc ← toArrOpt uv
  let vBc ← toArrOpt vv
  let pBc ← toArrOpt pv
  match xBc, yBc with
  | some xs, some ys =>
    let r := computeBoundaryLoss M xs ys uBc vBc pBc
    pure (nanAdd (nanAdd r.1 r.2.1) r.2.2)
  | _, _ => Except.error "ValueError: boundary coordinates are None"

/-- Mesh object as consumed by `NavierStokesLoss`: the dimensionality flag,
the interior point arrays (already flattened to columns), and the ordered
boundary dictionary. -/
structure Mesh where
  is2D : Bool
  X : List ℚ
  Y : List ℚ
  boundaries : List (String × PyDict)

/-- Kinematic viscosity fixed by `NavierStokesLoss.__init__`
(`src/training/loss.py` line 16): `self.nu = 0.01`. -/
def NavierStokesLoss_nu : ℚ := 1 / 100

/-- Boundary loop of `loss_function2D` (`src/training/loss.py` lines 64-78):
`for boundary_key, boundary_data in self.mesh.boundaries.items():
total_loss += uBc_loss + vBc_loss + pBc_loss`, with exceptions from the
body propagating. -/
def boundaryFold (M : ModelOracle) :
    Option ℚ → List (String × PyDict) → Except String (Option ℚ)
  | total, [] => Except.ok total
  | total, kb :: rest => do
    let l ← processBoundary M kb.2
    boundaryFold M (nanAdd total l) rest

/-- `NavierStokesLoss.loss_function2D` (`src/training/loss.py` lines 24-80):
the interior physics loss plus, for every boundary in the mesh dictionary,
the three boundary-condition losses. -/
def loss_function2D (M : ModelOracle) (mesh : Mesh) : Except String (Option ℚ) :=
  boundaryFold M (interiorLoss M NavierStokesLoss_nu mesh.X mesh.Y) mesh.boundaries

/-- `NavierStokesLoss.loss_function` (`src/training/loss.py` lines 18-22):
dispatch on the mesh dimensionality flag, 3D is unimplemented. -/
def loss_function (M : ModelOracle) (mesh : Mesh) : Except String (Option ℚ) :=
  if mesh.is2D then loss_function2D M mesh
  else Except.error "NotImplementedError: Only 2D loss functions are implemented for now."

/-- Boundary record in the `LidDrivenCavity` format
(`src/tests/LidDrivenCavity.py` lines 124-169): coordinate columns plus one
optional target column per physical component. -/
structure LDCBoundary where
  x : List ℚ
  y : List ℚ
  u : Option (List ℚ)
  v : Option (List ℚ)
  p : Option (List ℚ)

/-- `SteadyNavierStokes2D.loss_function` (`src/tests/LidDrivenCavity.py`
lines 53-102): the same interior physics loss, then for every boundary the
three boundary-condition losses via the duplicated `computeBoundaryLoss`. -/
def SteadyNS_loss_function (nu : ℚ) (M : ModelOracle) (X Y : List ℚ)
    (boundaries : List (String × LDCBoundary)) : Option ℚ :=
  boundaries.foldl
    (fun total kb =>
      let r := computeBoundaryLoss M kb.2.x kb.2.y kb.2.u kb.2.v kb.2.p
      nanAdd total (nanAdd (nanAdd r.1 r.2.1) r.2.2))
    (interiorLoss M nu X Y)

/-- View of an `LDCBoundary` as the Python dictionary it is in the source:
keys `x`, `y`, `u`, `v`, `p`, with `None` for an unconstrained component. -/
def LDCBoundary.toPyDict (b : LDCBoundary) : PyDict :=
  [("x", PyVal.arr b.x), ("y", PyVal.arr b.y),
   ("u", match b.u with | some t => PyVal.arr t | none => PyVal.pyNone),
   ("v", match b.v with | some t => PyVal.arr t | none => PyVal.pyNone),
   ("p", match b.p with | some t => PyVal.arr t | none => PyVal.pyNone)]


/-- Trainable parameter vector of the model; an entry is `none` when it has
become NaN. -/
abbrev Params := List (Option ℚ)

/-- Observable state of one training run: the current parameters, the number
of optimizer `apply_gradients` invocations, the `(epoch, loss)` pairs
recorded at print intervals, and the `(epoch, path)` checkpoint writes. -/
structure TrainState where
  params : Params
  applies : ℕ
  lossLog : List (ℕ × Option ℚ)
  saves : List (ℕ × String)
  deriving Repr, DecidableEq

/-- Checkpoint path `f"trainedModels/{self.eq}.tf"` used by `PINN.train`
(`src/models/model.py` line 73). -/
def savePath (eq : String) : String := "trainedModels/" ++ eq ++ ".tf"

/-- `PINN.train_step` (`src/models/model.py` lines 29-35): evaluate the loss
(an exception there propagates), differentiate it with respect to the
trainable parameters (the external tape, given as the oracle `gradFn`), and
unconditionally hand the gradients to the external optimizer `applyG`.
There is no finiteness guard. -/
def train_step (applyG : Params → Params → Params)
    (lossFn : Params → Except String (Option ℚ)) (gradFn : Params → Params)
    (prms : Params) : Except String (Option ℚ × Params) := do
  let loss ← lossFn prms
  let gradients := gradFn prms
  pure (loss, applyG prms gradients)

/-- Epoch loop of `PINN.train` (`src/models/model.py` lines 55-73): run the
remaining epochs starting after `epoch` steps have already run.  Each
iteration calls `train_step`; then, matching the Python `%` semantics,
`(epoch + 1) % print_interval` raises `ZeroDivisionError` when the interval
is zero, otherwise a multiple records the loss; likewise
`(epoch + 1) % autosave_interval` triggers `self.model.save(...)`. -/
def trainLoop (applyG : Params → Params → Params)
    (lossFn : Params → Except String (Option ℚ)) (gradFn : Params → Params)
    (printI autoI : ℕ) (eq : String) :
    ℕ → ℕ → TrainState → Except String TrainState
  | 0, _, st => Except.ok st
  | n + 1, epoch, st =>
    match train_step applyG lossFn gradFn st.params with
    | Except.error e => Except.error e
    | Except.ok (loss, p2) =>
      if printI = 0 then Except.error "ZeroDivisionError: integer modulo by zero"
      else
        let st1 : TrainState :=
          { params := p2, applies := st.applies + 1,
            lossLog := st.lossLog, saves := st.saves }
        let st2 :=
          if (epoch + 1) % printI = 0 then
            { st1 with lossLog := st1.lossLog ++ [(epoch + 1, loss)] }
          else st1
        if autoI = 0 then Except.error "ZeroDivisionError: integer modulo by zero"
        else
          let st3 :=
            if (epoch + 1) % autoI = 0 then
              { st2 with saves := st2.saves ++ [(epoch + 1, savePath eq)] }
            else st2
          trainLoop applyG lossFn gradFn printI autoI eq n (epoch + 1) st3

/-- `PINN.train(loss_function, epochs, print_interval, autosave_interval)`
(`src/models/model.py` lines 37-76), observed through the run state. -/
def PINN_train (applyG : Params → Params → Params)
    (lossFn : Params → Except String (Option ℚ)) (gradFn : Params → Params)
    (p0 : Params) (epochs printI autoI : ℕ) (eq : String) :
    Except String TrainState :=
  trainLoop applyG lossFn gradFn printI autoI eq epochs 0
    { params := p0, applies := 0, lossLog := [], saves := [] }

/-- Keys every boundary dictionary must carry, from
`FlowOverAirfoil._validate_boundary_conditions`
(`src/tests/FlowOverAirfoil.py` line 217). -/
def requiredKeys : List String := ["x", "y", "conditions", "bc_type"]

/-- Truth of `boundary[k] is None` for a fetched optional entry. -/
def isPyNone : Option PyVal → Bool
  | some PyVal.pyNone => true
  | _ => false

/-- Check of a single boundary inside
`FlowOverAirfoil._validate_boundary_conditions`
(`src/tests/FlowOverAirfoil.py` lines 216-227); `tag` is `""` for exterior
boundaries and `"interior "` for interior ones, matching the two messages in
the source. -/
def checkBoundary (tag : String) (nb : String × PyDict) : Except String Unit :=
  if requiredKeys.any (fun k => (nb.2.lookup k).isNone) then
    Except.error ("Missing required fields in " ++ tag ++ "boundary " ++ nb.1)
  else if isPyNone (nb.2.lookup "x") || isPyNone (nb.2.lookup "y") then
    Except.error ("Coordinates not set for " ++ tag ++ "boundary " ++ nb.1)
  else Except.ok ()

/-- Sequential validation of a list of boundaries: the first failing check
raises. -/
def validateList (tag : String) : List (String × PyDict) → Except String Unit
  | [] => Except.ok ()
  | nb :: rest =>
    match checkBoundary tag nb with
    | Except.error e => Except.error e
    | Except.ok _ => validateList tag rest

/-- `FlowOverAirfoil._validate_boundary_conditions`
(`src/tests/FlowOverAirfoil.py` lines 213-227): exterior boundaries first,
then interior boundaries. -/
def validateBoundaries (bnds intBnds : List (String × PyDict)) : Except String Unit :=
  match validateList "" bnds with
  | Except.error e => Except.error e
  | Except.ok _ => validateList "interior " intBnds

/-- Composition of the `FlowOverAirfoil` driver calls `generateMesh()` (whose
boundary-condition validation runs before any mesh generation,
`src/tests/FlowOverAirfoil.py` line 135) followed by `train(...)`
(`src/tests/FlowOverAirfoil.py` lines 232-234): a validation error aborts
before `PINN.train` — and hence before any optimizer step — is reached. -/
def airfoilTrainRun (bnds intBnds : List (String × PyDict))
    (applyG : Params → Params → Params)
    (lossFn : Params → Except String (Option ℚ)) (gradFn : Params → Params)
    (p0 : Params) (epochs printI autoI : ℕ) (eq : String) :
    Except String TrainState :=
  match validateBoundaries bnds intBnds with
  | Except.error e => Except.error e
  | Except.ok _ => PINN_train applyG lossFn gradFn p0 epochs printI autoI eq

/-- Inlet boundary built by `FlowOverAirfoil._initialize_boundaries`
(`src/tests/FlowOverAirfoil.py` lines 155-165), after `generateMesh` has
filled in the coordinate arrays (here two sample points at zero angle of
attack): the condition specs live only under the `conditions` key; there are
no top-level `u`, `v`, `p` keys. -/
def airfoilInlet : PyDict :=
  [("x", PyVal.arr [-10, -10]), ("y", PyVal.arr [-10, 10]),
   ("conditions", PyVal.dict
     [("u", PyVal.dict [("value", PyVal.num 1)]),
      ("v", PyVal.dict [("value", PyVal.num 0)]),
      ("p", PyVal.dict [("gradient", PyVal.num 0), ("direction", PyVal.str "x")])]),
   ("bc_type", PyVal.obj "inlet")]

/-- Outlet boundary from the same initializer (all three components
unconstrained under `conditions`). -/
def airfoilOutlet : PyDict :=
  [("x", PyVal.arr [10, 10]), ("y", PyVal.arr [-10, 10]),
   ("conditions", PyVal.dict
     [("u", PyVal.pyNone), ("v", PyVal.pyNone), ("p", PyVal.pyNone)]),
   ("bc_type", PyVal.obj "outlet")]

/-- Exterior boundary dictionary of the airfoil case, in insertion order. -/
def airfoilBnds : List (String × PyDict) :=
  [("Inlet", airfoilInlet), ("Outlet", airfoilOutlet)]

/-- Interior (airfoil) boundary from `_initialize_boundaries`
(`src/tests/FlowOverAirfoil.py` lines 199-211). -/
def airfoilIntBnds : List (String × PyDict) :=
  [("Airfoil",
    [("x", PyVal.arr [0, 1]), ("y", PyVal.arr [0, 0]),
     ("conditions", PyVal.dict
       [("u", PyVal.dict [("value", PyVal.num 0)]),
        ("v", PyVal.dict [("value", PyVal.num 0)]),
        ("p", PyVal.dict [("gradient", PyVal.num 0), ("direction", PyVal.str "normal")])]),
     ("bc_type", PyVal.obj "wall"),
     ("isInterior", PyVal.obj "True")])]

/-- Mesh of the airfoil case as `NavierStokesLoss` consumes it. -/
def airfoilMesh : Mesh :=
  { is2D := true, X := [0, 5], Y := [5, 5], boundaries := airfoilBnds }


/-- Concrete model oracle used for counterexamples and witnesses:
`u = x^2`, `v = y^2`, `p = x + y`, with its exact partial derivatives. -/
def polyOracle : ModelOracle :=
  { u := fun x _ => x * x, v := fun _ y => y * y, p := fun x y => x + y,
    ux := fun x _ => 2 * x, uy := fun _ _ => 0,
    vx := fun _ _ => 0, vy := fun _ y => 2 * y,
    px := fun _ _ => 1, py := fun _ _ => 1,
    uxx := fun _ _ => 2, uyy := fun _ _ => 0,
    vxx := fun _ _ => 0, vyy := fun _ _ => 2 }

/-- Value that one boundary adds to the total loss,
`uBc_loss + vBc_loss + pBc_loss`, common to both implementations. -/
def boundaryTotal (M : ModelOracle) (b : LDCBoundary) : Option ℚ :=
  nanAdd (nanAdd (computeBoundaryLoss M b.x b.y b.u b.v b.p).1
      (computeBoundaryLoss M b.x b.y b.u b.v b.p).2.1)
    (computeBoundaryLoss M b.x b.y b.u b.v b.p).2.2

/-- Step numbers of `n` consecutive epochs after `epoch` completed steps:
`epoch + 1, ..., epoch + n`. -/
def stepsOf : ℕ → ℕ → List ℕ
  | _, 0 => []
  | epoch, n + 1 => (epoch + 1) :: stepsOf (epoch + 1) n

/-- C1: the claim says the interior part of `loss_function2D` equals the sum
of the mean squares of the three residual channels evaluated elementwise at
every interior point.  On the batch `(0,0), (1,1)` with the model
`u = x^2, v = y^2, p = x + y` (derivatives exact) and the run constant
`ν = 0.01`, the code computes `17351/1250` — the momentum channels are
reduced over the `[N, N]` broadcast of `u_pred` (shape `[N]`) against the
`[N, 1]` derivative columns — while the elementwise value the claim states
is `22301/1250`.  The two differ, refuting the claim at this input. -/
theorem C1_interior_broadcast_vs_elementwise :
    interiorLoss polyOracle NavierStokesLoss_nu [0, 1] [0, 1] = some (17351 / 1250) ∧
    specInteriorResidualLoss polyOracle NavierStokesLoss_nu [0, 1] [0, 1] = some (22301 / 1250) ∧
    interiorLoss polyOracle NavierStokesLoss_nu [0, 1] [0, 1] ≠
      specInteriorResidualLoss polyOracle NavierStokesLoss_nu [0, 1] [0, 1] := by
  have hA : interiorLoss polyOracle NavierStokesLoss_nu [0, 1] [0, 1] = some (17351 / 1250) := by
    norm_num [interiorLoss, polyOracle, NavierStokesLoss_nu, colAdd, colScale, matAdd,
      matAddCol, matSubCol, bcastOp, meanSqMat, meanSqCol, tfMean, nanAdd]
  have hB : specInteriorResidualLoss polyOracle NavierStokesLoss_nu [0, 1] [0, 1]
      = some (22301 / 1250) := by
    norm_num [specInteriorResidualLoss, polyOracle, NavierStokesLoss_nu, tfMean, nanAdd]
  refine ⟨hA, hB, ?_⟩
  rw [hA, hB]
  norm_num

/-- C3: the claim says a Neumann spec `gradient: g, direction: axis` makes
the boundary term the mean squared error of the directional derivative
against `g`.  The code has no Neumann path at all: on the airfoil Inlet
boundary — whose pressure spec is Neumann `gradient 0, direction x`, stored
under `conditions` — the per-boundary body of `loss_function2D` raises
`KeyError` at `boundary_data["u"]` before any term is formed, for every
model. -/
theorem C3_neumann_spec_unhandled (M : ModelOracle) :
    processBoundary M airfoilInlet = Except.error "KeyError: u" := rfl

/-- C4: a physical component whose condition is `None` contributes the
scalar `0.0` — the term is still produced by `compute_loss`, not skipped —
and a boundary with all three components unconstrained contributes exactly
`0` to the loss, regardless of the model and of the boundary points. -/
theorem C4_unconstrained_component_zero (M : ModelOracle) (xs ys : List ℚ) (idx : ℕ) :
    compute_loss M xs ys none idx = some 0 ∧
    nanAdd (nanAdd (computeBoundaryLoss M xs ys none none none).1
        (computeBoundaryLoss M xs ys none none none).2.1)
      (computeBoundaryLoss M xs ys none none none).2.2 = some 0 := by
  constructor
  · rfl
  · simp [computeBoundaryLoss, compute_loss, nanAdd]

/-- C5 counterexample: on a boundary with zero points whose `u` component is
constrained (target array present, necessarily empty), `computeBoundaryLoss`
returns NaN (`tf.reduce_mean` over an empty tensor) for that component — not
the zero contribution the claim states, and a non-finite value. -/
theorem C5_empty_boundary_counterexample :
    computeBoundaryLoss polyOracle [] [] (some []) none none = (none, some 0, some 0) ∧
    (none : Option ℚ) ≠ some 0 := by
  refine ⟨by decide, by decide⟩

/-- Auxiliary: flattening a list of empty rows yields the empty list. -/
theorem flatten_const_nil (t : List ℚ) :
    (t.map (fun _ => ([] : List ℚ))).flatten = [] := by
  induction t with
  | nil => rfl
  | cons a t ih => simp [ih]

/-- C5 amended: on a boundary with zero points no exception is raised and
every unconstrained component still contributes exactly `0`; but every
constrained component evaluates to NaN — the mean of an empty tensor — a
non-finite value rather than zero. -/
theorem C5_empty_boundary_amended (M : ModelOracle) (idx : ℕ) :
    compute_loss M [] [] none idx = some 0 ∧
    ∀ t : List ℚ, compute_loss M [] [] (some t) idx = none := by
  refine ⟨rfl, fun t => ?_⟩
  simp [compute_loss, bcastOp, tfMean, flatten_const_nil]

/-- C7: for a mesh whose dimensionality flag is not 2D, `loss_function`
raises the explicit `NotImplementedError` and never falls back to the 2D
path. -/
theorem C7_non2d_not_implemented (M : ModelOracle) (mesh : Mesh)
    (h : mesh.is2D = false) :
    loss_function M mesh =
      Except.error "NotImplementedError: Only 2D loss functions are implemented for now." := by
  simp [loss_function, h]

/-- C7 witness: a concrete non-2D mesh triggers the `NotImplementedError`. -/
theorem C7_non2d_witness :
    Mesh.is2D { is2D := false, X := [], Y := [], boundaries := [] } = false ∧
    loss_function polyOracle { is2D := false, X := [], Y := [], boundaries := [] } =
      Except.error "NotImplementedError: Only 2D loss functions are implemented for now." :=
  ⟨rfl, C7_non2d_not_implemented polyOracle
    { is2D := false, X := [], Y := [], boundaries := [] } rfl⟩


/-- Auxiliary: on a boundary dictionary in the `LidDrivenCavity` format the
per-boundary body of `loss_function2D` succeeds and computes
`uBc_loss + vBc_loss + pBc_loss`. -/
theorem processBoundary_toPyDict (M : ModelOracle) (b : LDCBoundary) :
    processBoundary M b.toPyDict = Except.ok (boundaryTotal M b) := by
  obtain ⟨x, y, u, v, p⟩ := b
  cases u <;> cases v <;> cases p <;> rfl

/-- Auxiliary: the boundary loop of `loss_function2D` over converted
boundaries succeeds and equals the plain fold of `SteadyNS_loss_function`. -/
theorem boundaryFold_toPyDict (M : ModelOracle) (bs : List (String × LDCBoundary)) :
    ∀ acc : Option ℚ,
      boundaryFold M acc (bs.map (fun kb => (kb.1, LDCBoundary.toPyDict kb.2)))
      = Except.ok (bs.foldl
          (fun total kb => nanAdd total (boundaryTotal M kb.2)) acc) := by
  induction bs with
  | nil => intro acc; rfl
  | cons kb rest ih =>
    intro acc
    show (processBoundary M kb.2.toPyDict >>= fun l =>
        boundaryFold M (nanAdd acc l)
          (rest.map (fun kb => (kb.1, LDCBoundary.toPyDict kb.2)))) = _
    rw [processBoundary_toPyDict]
    exact ih (nanAdd acc (boundaryTotal M kb.2))

/-- C2: on the same model-and-derivative oracle, the same interior point
set, and the same boundary set (in the `LidDrivenCavity` key format both
implementations read), with the same `ν = 0.01`, the scalar computed by
`NavierStokesLoss.loss_function2D` equals the scalar computed by
`SteadyNavierStokes2D.loss_function`: the two divergent loss-assembly
implementations are the same computation, broadcast semantics included. -/
theorem C2_two_loss_implementations_agree (M : ModelOracle) (X Y : List ℚ)
    (bs : List (String × LDCBoundary)) :
    loss_function2D M
      { is2D := true, X := X, Y := Y,
        boundaries := bs.map (fun kb => (kb.1, LDCBoundary.toPyDict kb.2)) }
      = Except.ok (SteadyNS_loss_function NavierStokesLoss_nu M X Y bs) := by
  have h := boundaryFold_toPyDict M bs (interiorLoss M NavierStokesLoss_nu X Y)
  simpa [loss_function2D, SteadyNS_loss_function, boundaryTotal] using h


/-- Auxiliary: membership in `stepsOf` is the integer interval. -/
theorem mem_stepsOf (s : ℕ) : ∀ n epoch, s ∈ stepsOf epoch n ↔ epoch < s ∧ s ≤ epoch + n := by
  intro n
  induction n with
  | zero => intro epoch; simp [stepsOf]
  | succ n ih =>
    intro epoch
    simp only [stepsOf, List.mem_cons, ih (epoch + 1)]
    omega

/-- Auxiliary: `stepsOf` splits over a sum of epoch counts. -/
theorem stepsOf_append : ∀ m k epoch, stepsOf epoch (m + k) = stepsOf epoch m ++ stepsOf (epoch + m) k := by
  intro m
  induction m with
  | zero => intro k epoch; simp [stepsOf]
  | succ m ih =>
    intro k epoch
    have h1 : m + 1 + k = (m + k) + 1 := by omega
    rw [h1]
    show (epoch + 1) :: stepsOf (epoch + 1) (m + k) = _
    rw [ih k (epoch + 1)]
    have h2 : epoch + 1 + m = epoch + (m + 1) := by omega
    rw [h2]
    rfl

/-- Auxiliary: among the first `a` steps, only step `a` itself is a multiple
of a positive interval `a`. -/
theorem filter_stepsOf_self (a : ℕ) (ha : a ≠ 0) :
    (stepsOf 0 a).filter (fun s => s % a == 0) = [a] := by
  obtain ⟨m, rfl⟩ := Nat.exists_eq_succ_of_ne_zero ha
  have hsplit : stepsOf 0 (m + 1) = stepsOf 0 m ++ stepsOf m 1 := by
    have := stepsOf_append m 1 0
    simpa using this
  rw [hsplit, List.filter_append]
  have hnil : (stepsOf 0 m).filter (fun s => s % (m + 1) == 0) = [] := by
    rw [List.filter_eq_nil_iff]
    intro s hs
    rw [mem_stepsOf] at hs
    have : s % (m + 1) = s := Nat.mod_eq_of_lt (by omega)
    simp [this]
    omega
  rw [hnil]
  show [] ++ List.filter _ ((m + 1) :: []) = _
  simp

/-- Auxiliary characterization of a complete run of the epoch loop when the
loss function itself never raises: the loop reaches all `n` epochs, applies
the optimizer once per epoch, records one loss entry at every print multiple
and writes one checkpoint at every autosave multiple. -/
theorem trainLoop_total_char (applyG : Params → Params → Params)
    (lossVal : Params → Option ℚ) (gradFn : Params → Params)
    (printI autoI : ℕ) (eq : String) (hp : printI ≠ 0) (ha : autoI ≠ 0) :
    ∀ (n epoch : ℕ) (st : TrainState),
      ∃ st' : TrainState,
        trainLoop applyG (fun prms => Except.ok (lossVal prms)) gradFn
            printI autoI eq n epoch st = Except.ok st' ∧
        st'.applies = st.applies + n ∧
        st'.saves = st.saves ++
          ((stepsOf epoch n).filter (fun s => s % autoI == 0)).map
            (fun s => (s, savePath eq)) ∧
        st'.lossLog.map Prod.fst = st.lossLog.map Prod.fst ++
          (stepsOf epoch n).filter (fun s => s % printI == 0) := by
  intro n
  induction n with
  | zero =>
    intro epoch st
    exact ⟨st, rfl, by omega, by simp [stepsOf], by simp [stepsOf]⟩
  | succ n ih =>
    intro epoch st
    by_cases hpm : (epoch + 1) % printI = 0 <;> by_cases ham : (epoch + 1) % autoI = 0
    case pos =>
      obtain ⟨st', hrun, happ, hsave, hlog⟩ := ih (epoch + 1)
        { params := applyG st.params (gradFn st.params), applies := st.applies + 1,
          lossLog := st.lossLog ++ [(epoch + 1, lossVal st.params)],
          saves := st.saves ++ [(epoch + 1, savePath eq)] }
      refine ⟨st', ?_, by simp at happ; omega, ?_, ?_⟩
      · show trainLoop _ _ _ _ _ _ (n + 1) epoch st = _
        simp only [trainLoop, train_step, bind, Except.bind, if_neg hp, if_neg ha,
          if_pos hpm, if_pos ham]
        exact hrun
      · rw [hsave]
        simp [stepsOf, List.filter_cons, hpm, ham]
      · rw [hlog]
        simp [stepsOf, List.filter_cons, hpm, ham]
    case neg =>
      obtain ⟨st', hrun, happ, hsave, hlog⟩ := ih (epoch + 1)
        { params := applyG st.params (gradFn st.params), applies := st.applies + 1,
          lossLog := st.lossLog ++ [(epoch + 1, lossVal st.params)],
          saves := st.saves }
      refine ⟨st', ?_, by simp at happ; omega, ?_, ?_⟩
      · show trainLoop _ _ _ _ _ _ (n + 1) epoch st = _
        simp only [trainLoop, train_step, bind, Except.bind, if_neg hp, if_neg ha,
          if_pos hpm, if_neg ham]
        exact hrun
      · rw [hsave]
        simp [stepsOf, List.filter_cons, hpm, ham]
      · rw [hlog]
        simp [stepsOf, List.filter_cons, hpm, ham]
    case pos =>
      obtain ⟨st', hrun, happ, hsave, hlog⟩ := ih (epoch + 1)
        { params := applyG st.params (gradFn st.params), applies := st.applies + 1,
          lossLog := st.lossLog,
          saves := st.saves ++ [(epoch + 1, savePath eq)] }
      refine ⟨st', ?_, by simp at happ; omega, ?_, ?_⟩
      · show trainLoop _ _ _ _ _ _ (n + 1) epoch st = _
        simp only [trainLoop, train_step, bind, Except.bind, if_neg hp, if_neg ha,
          if_neg hpm, if_pos ham]
        exact hrun
      · rw [hsave]
        simp [stepsOf, List.filter_cons, hpm, ham]
      · rw [hlog]
        simp [stepsOf, List.filter_cons, hpm, ham]
    case neg =>
      obtain ⟨st', hrun, happ, hsave, hlog⟩ := ih (epoch + 1)
        { params := applyG st.params (gradFn st.params), applies := st.applies + 1,
          lossLog := st.lossLog, saves := st.saves }
      refine ⟨st', ?_, by simp at happ; omega, ?_, ?_⟩
      · show trainLoop _ _ _ _ _ _ (n + 1) epoch st = _
        simp only [trainLoop, train_step, bind, Except.bind, if_neg hp, if_neg ha,
          if_neg hpm, if_neg ham]
        exact hrun
      · rw [hsave]
        simp [stepsOf, List.filter_cons, hpm, ham]
      · rw [hlog]
        simp [stepsOf, List.filter_cons, hpm, ham]

/-- C9: for every run of `train(epochs, printInterval, autosaveInterval)`
with positive intervals and a loss evaluation that raises no exception, a
checkpoint tagged by the problem identifier (path
`trainedModels/{eq}.tf`) is written exactly at the steps whose number is a
multiple of `autosaveInterval`; every write targets that same single path,
so each write overwrites the previous one and only the latest survives; in
particular training for exactly `autosaveInterval` epochs produces exactly
one checkpoint write. -/
theorem C9_autosave_schedule (applyG : Params → Params → Params)
    (lossVal : Params → Option ℚ) (gradFn : Params → Params) (p0 : Params)
    (epochs printI autoI : ℕ) (eq : String) (hp : 0 < printI) (ha : 0 < autoI) :
    ∃ st : TrainState,
      PINN_train applyG (fun prms => Except.ok (lossVal prms)) gradFn p0
          epochs printI autoI eq = Except.ok st ∧
      st.saves = ((stepsOf 0 epochs).filter (fun s => s % autoI == 0)).map
        (fun s => (s, savePath eq)) ∧
      (∀ w ∈ st.saves, w.2 = savePath eq) ∧
      (epochs = autoI → st.saves = [(autoI, savePath eq)]) := by
  obtain ⟨st, hrun, happ, hsave, hlog⟩ :=
    trainLoop_total_char applyG lossVal gradFn printI autoI eq
      (Nat.pos_iff_ne_zero.mp hp) (Nat.pos_iff_ne_zero.mp ha) epochs 0
      { params := p0, applies := 0, lossLog := [], saves := [] }
  simp only [List.nil_append] at hsave
  refine ⟨st, hrun, hsave, ?_, ?_⟩
  · intro w hw
    rw [hsave] at hw
    obtain ⟨sn, hsn, rfl⟩ := List.mem_map.mp hw
    rfl
  · intro h
    subst h
    rw [hsave, filter_stepsOf_self epochs (Nat.pos_iff_ne_zero.mp ha)]
    rfl

/-- C9 witness: training for exactly `autosaveInterval = 3` epochs with
print interval 1 produces exactly one checkpoint write, tagged by the
problem identifier. -/
theorem C9_autosave_schedule_witness :
    ∃ st : TrainState,
      PINN_train (fun prms _ => prms) (fun _ => Except.ok (some 1)) (fun _ => [])
          [] 3 1 3 "FlowOverAirfoil" = Except.ok st ∧
      st.saves = ((stepsOf 0 3).filter (fun s => s % 3 == 0)).map
        (fun s => (s, savePath "FlowOverAirfoil")) ∧
      (∀ w ∈ st.saves, w.2 = savePath "FlowOverAirfoil") ∧
      (3 = 3 → st.saves = [(3, savePath "FlowOverAirfoil")]) :=
  C9_autosave_schedule (fun prms _ => prms) (fun _ => some 1) (fun _ => [])
    [] 3 1 3 "FlowOverAirfoil" (by decide) (by decide)

/-- C8 counterexample: one training step on the concrete loss `NaN` with the
non-finite gradient `[NaN]`, under a NaN-propagating first-order optimizer
update: the run does not abort and the non-finite loss is logged, but the
claim also states the optimizer apply step is skipped whenever a gradient is
non-finite — here the apply step runs (`applies = 1`, not `0`) and the
parameter, initially `1`, is corrupted to NaN. -/
theorem C8_apply_not_skipped_counterexample :
    PINN_train
        (fun prms grds => List.zipWith
          (fun pi gi => match pi, gi with
            | some a, some b => some (a - b)
            | _, _ => none) prms grds)
        (fun _ => Except.ok none) (fun _ => [none]) [some 1] 1 1 1 "LidDrivenCavity"
      = Except.ok { params := [none], applies := 1, lossLog := [(1, none)],
                    saves := [(1, savePath "LidDrivenCavity")] } ∧
    (1 : ℕ) ≠ 0 ∧ (none : Option ℚ) ≠ some 1 := by
  refine ⟨rfl, by decide, by decide⟩

/-- C8 amended: a non-finite loss arising mid-training is indeed not fatal —
the loop continues through all requested epochs (whatever `Option ℚ` values
the loss takes, including NaN), and at every print multiple the loss value
of that step is recorded, making a non-finite loss observable in the log;
however the optimizer apply step is never skipped: it executes exactly once
per epoch, non-finite gradients included, so parameters can be permanently
corrupted. -/
theorem C8_nonfinite_loss_nonfatal_amended (applyG : Params → Params → Params)
    (lossVal : Params → Option ℚ) (gradFn : Params → Params) (p0 : Params)
    (epochs printI autoI : ℕ) (eq : String) (hp : 0 < printI) (ha : 0 < autoI) :
    ∃ st : TrainState,
      PINN_train applyG (fun prms => Except.ok (lossVal prms)) gradFn p0
          epochs printI autoI eq = Except.ok st ∧
      st.applies = epochs ∧
      st.lossLog.map Prod.fst = (stepsOf 0 epochs).filter (fun s => s % printI == 0) := by
  obtain ⟨st, hrun, happ, hsave, hlog⟩ :=
    trainLoop_total_char applyG lossVal gradFn printI autoI eq
      (Nat.pos_iff_ne_zero.mp hp) (Nat.pos_iff_ne_zero.mp ha) epochs 0
      { params := p0, applies := 0, lossLog := [], saves := [] }
  simp only [List.map_nil, List.nil_append] at hlog
  exact ⟨st, hrun, by simpa using happ, hlog⟩

/-- C8 amended witness: a run of 2 epochs whose loss is always NaN completes
both epochs, applies the optimizer twice and logs at both print steps. -/
theorem C8_nonfinite_loss_nonfatal_witness :
    ∃ st : TrainState,
      PINN_train (fun prms _ => prms) (fun _ => Except.ok none) (fun _ => [none])
          [some 1] 2 1 2 "LidDrivenCavity" = Except.ok st ∧
      st.applies = 2 ∧
      st.lossLog.map Prod.fst = (stepsOf 0 2).filter (fun s => s % 1 == 0) :=
  C8_nonfinite_loss_nonfatal_amended (fun prms _ => prms) (fun _ => none)
    (fun _ => [none]) [some 1] 2 1 2 "LidDrivenCavity" (by decide) (by decide)

/-- C10: the airfoil boundary format stores condition specs only under a
`conditions` map, with no top-level `u`, `v`, `p` keys; it passes
`_validate_boundary_conditions` at configuration time, yet
`loss_function2D` raises `KeyError` at `boundary_data["u"]` on its first
evaluation, so a training run on such a mesh aborts during the first
training step — not at configuration time. -/
theorem C10_conditions_format_first_step_keyerror (M : ModelOracle)
    (applyG : Params → Params → Params) (gradFn : Params → Params) (p0 : Params)
    (epochs printI autoI : ℕ) (eq : String) (he : 0 < epochs) :
    validateBoundaries airfoilBnds airfoilIntBnds = Except.ok () ∧
    loss_function2D M airfoilMesh = Except.error "KeyError: u" ∧
    PINN_train applyG (fun _ => loss_function2D M airfoilMesh) gradFn p0
        epochs printI autoI eq = Except.error "KeyError: u" := by
  obtain ⟨n, rfl⟩ := Nat.exists_eq_succ_of_ne_zero (Nat.pos_iff_ne_zero.mp he)
  exact ⟨rfl, rfl, rfl⟩

/-- C10 witness: a one-epoch run on the airfoil mesh aborts with the
`KeyError` while configuration-time validation had succeeded. -/
theorem C10_conditions_format_witness :
    validateBoundaries airfoilBnds airfoilIntBnds = Except.ok () ∧
    loss_function2D polyOracle airfoilMesh = Except.error "KeyError: u" ∧
    PINN_train (fun prms _ => prms) (fun _ => loss_function2D polyOracle airfoilMesh)
        (fun _ => []) [] 1 1 1 "FlowOverAirfoil" = Except.error "KeyError: u" :=
  C10_conditions_format_first_step_keyerror polyOracle (fun prms _ => prms)
    (fun _ => []) [] 1 1 1 "FlowOverAirfoil" (by decide)

/-- Auxiliary: a boundary missing one of the required keys fails its check. -/
theorem checkBoundary_error_of_missing (tag : String) (nb : String × PyDict)
    (k : String) (hk : k ∈ requiredKeys) (hmiss : nb.2.lookup k = none) :
    checkBoundary tag nb =
      Except.error ("Missing required fields in " ++ tag ++ "boundary " ++ nb.1) := by
  have hany : requiredKeys.any (fun key => (nb.2.lookup key).isNone) = true := by
    rw [List.any_eq_true]
    exact ⟨k, hk, by rw [hmiss]; rfl⟩
  simp [checkBoundary, hany]

/-- Auxiliary: if any boundary of a list fails its check, the sequential
validation of that list raises. -/
theorem validateList_error_of_mem (tag : String) :
    ∀ (l : List (String × PyDict)) (nb : String × PyDict) (e : String),
      nb ∈ l → checkBoundary tag nb = Except.error e →
      ∃ msg, validateList tag l = Except.error msg := by
  intro l
  induction l with
  | nil => intro nb e h; exact absurd h (List.not_mem_nil nb)
  | cons hd tl ih =>
    intro nb e hmem hchk
    rcases List.mem_cons.mp hmem with heq | htl
    · subst heq
      exact ⟨e, by simp [validateList, hchk]⟩
    · match hhd : checkBoundary tag hd with
      | Except.error e2 => exact ⟨e2, by simp [validateList, hhd]⟩
      | Except.ok _ =>
        obtain ⟨msg, hmsg⟩ := ih nb e htl hchk
        exact ⟨msg, by simp [validateList, hhd, hmsg]⟩

/-- Auxiliary: a raised validation message always comes from the check of
one of the boundaries in the list. -/
theorem validateList_error_mem (tag : String) :
    ∀ (l : List (String × PyDict)) (msg : String),
      validateList tag l = Except.error msg →
      ∃ nb, nb ∈ l ∧ checkBoundary tag nb = Except.error msg := by
  intro l
  induction l with
  | nil => intro msg h; exact absurd h (by simp [validateList])
  | cons hd tl ih =>
    intro msg h
    match hhd : checkBoundary tag hd with
    | Except.error e2 =>
      rw [validateList, hhd] at h
      cases h
      exact ⟨hd, List.mem_cons_self hd tl, hhd⟩
    | Except.ok u =>
      rw [validateList, hhd] at h
      obtain ⟨nb, hmem, hchk⟩ := ih msg h
      exact ⟨nb, List.mem_cons_of_mem hd hmem, hchk⟩

/-- Auxiliary: every error a boundary check can raise is one of the two
descriptive configuration messages naming the offending boundary. -/
theorem checkBoundary_error_shape (tag : String) (nb : String × PyDict)
    (msg : String) (h : checkBoundary tag nb = Except.error msg) :
    msg = "Missing required fields in " ++ tag ++ "boundary " ++ nb.1 ∨
    msg = "Coordinates not set for " ++ tag ++ "boundary " ++ nb.1 := by
  rw [checkBoundary] at h
  split at h
  · cases h; exact Or.inl rfl
  · split at h
    · cases h; exact Or.inr rfl
    · cases h

/-- Auxiliary: a boundary with a missing required key in either the exterior
or the interior list makes `_validate_boundary_conditions` raise. -/
theorem validateBoundaries_error_of_offender
    (bnds intBnds : List (String × PyDict)) (name : String) (bd : PyDict)
    (k : String) (hmem : (name, bd) ∈ bnds ∨ (name, bd) ∈ intBnds)
    (hk4 : k ∈ requiredKeys) (hmiss : bd.lookup k = none) :
    ∃ msg, validateBoundaries bnds intBnds = Except.error msg := by
  rcases hmem with hext | hint
  · obtain ⟨msg, hval⟩ := validateList_error_of_mem "" bnds (name, bd) _ hext
      (checkBoundary_error_of_missing "" (name, bd) k hk4 hmiss)
    exact ⟨msg, by rw [validateBoundaries, hval]⟩
  · cases hval0 : validateList "" bnds with
    | error e => exact ⟨e, by rw [validateBoundaries, hval0]⟩
    | ok u =>
      obtain ⟨msg, hval⟩ := validateList_error_of_mem "interior " intBnds (name, bd) _ hint
        (checkBoundary_error_of_missing "interior " (name, bd) k hk4 hmiss)
      refine ⟨msg, ?_⟩
      rw [validateBoundaries, hval0]
      exact hval

/-- Auxiliary: every error `_validate_boundary_conditions` raises comes from
the check of one boundary of one of the two lists — exterior boundaries with
the plain messages, interior boundaries with the `interior` messages. -/
theorem validateBoundaries_error_cases (bnds intBnds : List (String × PyDict))
    (msg : String) (h : validateBoundaries bnds intBnds = Except.error msg) :
    (∃ nb, (nb ∈ bnds ∧ checkBoundary "" nb = Except.error msg) ∨
      (nb ∈ intBnds ∧ checkBoundary "interior " nb = Except.error msg)) ∧
    (∃ tag nm, (tag = "" ∨ tag = "interior ") ∧
      (msg = "Missing required fields in " ++ tag ++ "boundary " ++ nm ∨
       msg = "Coordinates not set for " ++ tag ++ "boundary " ++ nm)) := by
  rw [validateBoundaries] at h
  cases hval0 : validateList "" bnds with
  | error e =>
    rw [hval0] at h
    cases h
    obtain ⟨nb, hnbmem, hnbchk⟩ := validateList_error_mem "" bnds msg hval0
    exact ⟨⟨nb, Or.inl ⟨hnbmem, hnbchk⟩⟩,
      "", nb.1, Or.inl rfl, checkBoundary_error_shape "" nb msg hnbchk⟩
  | ok u =>
    rw [hval0] at h
    obtain ⟨nb, hnbmem, hnbchk⟩ := validateList_error_mem "interior " intBnds msg h
    exact ⟨⟨nb, Or.inr ⟨hnbmem, hnbchk⟩⟩,
      "interior ", nb.1, Or.inr rfl, checkBoundary_error_shape "interior " nb msg hnbchk⟩

/-- C6: if any boundary handed to `_validate_boundary_conditions` — exterior
or interior — is missing one of the required fields `x`, `y` or the
`conditions` map, then the driver sequence `generateMesh()` (which validates
before generating) followed by `train(...)` raises a configuration error
before `PINN.train` executes any optimizer step: the validation itself
fails, the composed run returns the same error and never a training state,
and the message is one of the two descriptive validation messages —
exterior or interior according to the loop that raised — naming the
offending boundary. -/
theorem C6_missing_field_fails_before_training
    (bnds intBnds : List (String × PyDict)) (name : String) (bd : PyDict)
    (k : String) (applyG : Params → Params → Params)
    (lossFn : Params → Except String (Option ℚ)) (gradFn : Params → Params)
    (p0 : Params) (epochs printI autoI : ℕ) (eq : String)
    (hmem : (name, bd) ∈ bnds ∨ (name, bd) ∈ intBnds)
    (hk : k ∈ (["x", "y", "conditions"] : List String))
    (hmiss : bd.lookup k = none) :
    ∃ msg, validateBoundaries bnds intBnds = Except.error msg ∧
      airfoilTrainRun bnds intBnds applyG lossFn gradFn p0 epochs printI autoI eq
        = Except.error msg ∧
      (∃ nb, (nb ∈ bnds ∧ checkBoundary "" nb = Except.error msg) ∨
        (nb ∈ intBnds ∧ checkBoundary "interior " nb = Except.error msg)) ∧
      (∃ tag nm, (tag = "" ∨ tag = "interior ") ∧
        (msg = "Missing required fields in " ++ tag ++ "boundary " ++ nm ∨
         msg = "Coordinates not set for " ++ tag ++ "boundary " ++ nm)) := by
  have hk4 : k ∈ requiredKeys := by
    simp only [List.mem_cons, List.not_mem_nil, or_false] at hk
    rcases hk with rfl | rfl | rfl <;> decide
  obtain ⟨msg, hvb⟩ :=
    validateBoundaries_error_of_offender bnds intBnds name bd k hmem hk4 hmiss
  obtain ⟨hoff, hshape⟩ := validateBoundaries_error_cases bnds intBnds msg hvb
  exact ⟨msg, hvb, by rw [airfoilTrainRun, hvb], hoff, hshape⟩

/-- C6 witness: the interior `Airfoil` boundary missing its `conditions`
field — with well-formed exterior boundaries, so the interior validation
loop is the one that raises — makes the validate-then-train pipeline fail
with the descriptive interior configuration error before any optimizer
step. -/
theorem C6_missing_field_witness :
    ∃ msg, validateBoundaries airfoilBnds
        [("Airfoil", [("x", PyVal.arr [0]), ("y", PyVal.arr [0]), ("bc_type", PyVal.obj "wall")])]
        = Except.error msg ∧
      airfoilTrainRun airfoilBnds
        [("Airfoil", [("x", PyVal.arr [0]), ("y", PyVal.arr [0]), ("bc_type", PyVal.obj "wall")])]
        (fun prms _ => prms) (fun _ => Except.ok (some 0)) (fun _ => [])
        [] 5 1 1 "FlowOverAirfoil" = Except.error msg ∧
      (∃ nb, (nb ∈ airfoilBnds ∧ checkBoundary "" nb = Except.error msg) ∨
        (nb ∈ [("Airfoil",
            [("x", PyVal.arr [0]), ("y", PyVal.arr [0]), ("bc_type", PyVal.obj "wall")])] ∧
          checkBoundary "interior " nb = Except.error msg)) ∧
      (∃ tag nm, (tag = "" ∨ tag = "interior ") ∧
        (msg = "Missing required fields in " ++ tag ++ "boundary " ++ nm ∨
         msg = "Coordinates not set for " ++ tag ++ "boundary " ++ nm)) :=
  C6_missing_field_fails_before_training airfoilBnds
    [("Airfoil", [("x", PyVal.arr [0]), ("y", PyVal.arr [0]), ("bc_type", PyVal.obj "wall")])]
    "Airfoil" [("x", PyVal.arr [0]), ("y", PyVal.arr [0]), ("bc_type", PyVal.obj "wall")]
    "conditions" (fun prms _ => prms) (fun _ => Except.ok (some 0)) (fun _ => [])
    [] 5 1 1 "FlowOverAirfoil" (Or.inr (List.mem_cons_self _ _))
    (List.mem_cons_of_mem _ (List.mem_cons_of_mem _ (List.mem_cons_self _ _))) rfl

end MusTINN
